import Mathlib

/-!
Shallow embedding of `src/backend/main.py` (wras-v4 backend, FastAPI service
exposing /detect-language, /transcribe and /transcribe-speech).

Modelling conventions:
* Python float confidences are modelled as exact rationals (`ℚ`); the literals
  0.9, 0.7, 0.95, 0.8, 0.0 in the source become the corresponding rationals.
* The filesystem (`os.path.exists`) is modelled as the list `fs` of existing
  paths; `os.path.exists p` becomes `fs.contains p`.
* The Whisper model handle is `Option WhisperModel`; `whisper_model is None`
  becomes the `none` case.  A `WhisperModel` is an oracle
  `path → language hint → Except String WhisperResult`: the `.error msg` case
  models `whisper_model.transcribe` raising an exception whose `str` is `msg`.
* Python exceptions are `PyExc`: `httpException s d` models
  `fastapi.HTTPException(status_code=s, detail=d)` (a subclass of `Exception`,
  with `str(e) = f"{s}: {d}"`), and `error msg` models any other exception
  with `str(e) = msg`.  A `try ... except Exception` block is translated as a
  computation in `Except PyExc` followed by a total handler for the error
  case — in particular an `HTTPException` raised inside the `try` block is
  caught by the `except Exception` clause, exactly as in Python.
* Whisper's result dict is `WhisperResult`; `result.get("language", "en")`
  becomes `language.getD "en"` and `result.get("text", "")` becomes
  `text.getD ""`.
* To make the number and order of recognition-capability invocations
  observable, the handlers additionally return the list of `Call`s they made
  to the Whisper oracle (explicit state passing for the call trace).
-/

structure LanguageEntry where
  name : String
  code : String
deriving DecidableEq, Repr

/-- `LANGUAGE_MAPPING` from main.py lines 55-60: the curated registry. -/
def LANGUAGE_MAPPING : List (String × LanguageEntry) :=
  [("en", ⟨"English", "en-IN"⟩),
   ("hi", ⟨"हिंदी (Hindi)", "hi-IN"⟩),
   ("mr", ⟨"मराठी (Marathi)", "mr-IN"⟩),
   ("gu", ⟨"ગુજરાતી (Gujarati)", "gu-IN"⟩)]

/-- Python `LANGUAGE_MAPPING.get(k)` without default: `none` when absent. -/
def languageMappingGet (k : String) : Option LanguageEntry :=
  (LANGUAGE_MAPPING.find? (fun p => p.1 == k)).map Prod.snd

/-- Python `LANGUAGE_MAPPING.get(k, {'name': f'Unknown ({k})', 'code': 'en-IN'})`
(main.py lines 149-152 and 208-211). -/
def lookupLanguage (k : String) : LanguageEntry :=
  (languageMappingGet k).getD ⟨"Unknown (" ++ k ++ ")", "en-IN"⟩

/-- Python `k in LANGUAGE_MAPPING` (dict membership on the registry keys). -/
def curated (k : String) : Bool :=
  (languageMappingGet k).isSome

/-- A Python exception as observed by `except Exception as e` / `str(e)`. -/
inductive PyExc where
  | httpException (status : Nat) (detail : String)
  | error (msg : String)
deriving DecidableEq, Repr

/-- Python `str(e)`: FastAPI `HTTPException` stringifies as `"{status}: {detail}"`. -/
def PyExc.str : PyExc → String
  | .httpException s d => toString s ++ ": " ++ d
  | .error m => m

/-- The dict returned by `whisper_model.transcribe`; fields may be absent. -/
structure WhisperResult where
  language : Option String
  text : Option String
deriving DecidableEq, Repr

/-- The Whisper recognition oracle: audio path and optional language hint to
either a result or a raised exception message. -/
def WhisperModel : Type :=
  String → Option String → Except String WhisperResult

/-- One invocation of `whisper_model.transcribe(path, language=lang, task="transcribe")`. -/
structure Call where
  path : String
  language : Option String
deriving DecidableEq, Repr

/-- Python `str.strip()` with no argument: remove leading and trailing
whitespace.  Defined by structural recursion on the character list so that
concrete instances reduce in the kernel. -/
def pyStrip (s : String) : String :=
  ⟨((s.data.dropWhile Char.isWhitespace).reverse.dropWhile
      Char.isWhitespace).reverse⟩

/-- `LanguageDetectionResponse` pydantic model, main.py lines 40-46. -/
structure LanguageDetectionResponse where
  success : Bool
  detected_language : String
  language_code : String
  confidence : ℚ
  transcript : String
  error : Option String := none
deriving DecidableEq, Repr

/-- `TranscriptionResponse` pydantic model, main.py lines 48-52. -/
structure TranscriptionResponse where
  success : Bool
  transcript : String
  confidence : ℚ
  error : Option String := none
deriving DecidableEq, Repr

/-- The `try:` block of `detect_language` (main.py lines 129-165), returning
the outcome together with the list of Whisper invocations made. -/
def detect_language_try (model? : Option WhisperModel) (fs : List String)
    (audio_path : String) :
    Except PyExc LanguageDetectionResponse × List Call :=
  match model? with
  | none => (.error (.httpException 500 "Whisper model not loaded"), [])
  | some model =>
    if fs.contains audio_path = false then
      (.error (.httpException 404 ("Audio file not found: " ++ audio_path)), [])
    else
      match model audio_path none with
      | .error e => (.error (.error e), [⟨audio_path, none⟩])
      | .ok result =>
        let detected_lang_code := result.language.getD "en"
        let detected_lang_info := lookupLanguage detected_lang_code
        let confidence : ℚ := if curated detected_lang_code then 0.9 else 0.7
        (.ok ⟨true, detected_lang_info.name, detected_lang_info.code,
              confidence, "", none⟩,
         [⟨audio_path, none⟩])

/-- The `/detect-language` handler (main.py lines 118-176): the `try` block
wrapped by `except Exception as e: return LanguageDetectionResponse(...)`
(lines 167-176).  Every exception — the 404/500 `HTTPException`s included —
is caught, so the handler always returns a response body. -/
def detect_language (model? : Option WhisperModel) (fs : List String)
    (audio_path : String) : LanguageDetectionResponse × List Call :=
  match detect_language_try model? fs audio_path with
  | (.ok r, calls) => (r, calls)
  | (.error e, calls) => (⟨false, "", "en-IN", 0, "", some e.str⟩, calls)

/-- The `try:` block of `transcribe_audio` (main.py lines 189-232). -/
def transcribe_audio_try (model? : Option WhisperModel) (fs : List String)
    (audio_path : String) :
    Except PyExc LanguageDetectionResponse × List Call :=
  match model? with
  | none => (.error (.httpException 500 "Whisper model not loaded"), [])
  | some model =>
    if fs.contains audio_path = false then
      (.error (.httpException 404 ("Audio file not found: " ++ audio_path)), [])
    else
      match model audio_path none with
      | .error e => (.error (.error e), [⟨audio_path, none⟩])
      | .ok detect_result =>
        let detected_lang_code := detect_result.language.getD "en"
        let detected_lang_info := lookupLanguage detected_lang_code
        match model audio_path (some detected_lang_code) with
        | .error e =>
          (.error (.error e),
           [⟨audio_path, none⟩, ⟨audio_path, some detected_lang_code⟩])
        | .ok transcribe_result =>
          let transcript := pyStrip (transcribe_result.text.getD "")
          let confidence : ℚ :=
            if transcript != "" && curated detected_lang_code then 0.95 else 0.8
          (.ok ⟨true, detected_lang_info.name, detected_lang_info.code,
                confidence, transcript, none⟩,
           [⟨audio_path, none⟩, ⟨audio_path, some detected_lang_code⟩])

/-- The `/transcribe` handler (main.py lines 178-243): `try` block wrapped by
the catch-all `except Exception` clause (lines 234-243). -/
def transcribe_audio (model? : Option WhisperModel) (fs : List String)
    (audio_path : String) : LanguageDetectionResponse × List Call :=
  match transcribe_audio_try model? fs audio_path with
  | (.ok r, calls) => (r, calls)
  | (.error e, calls) => (⟨false, "", "en-IN", 0, "", some e.str⟩, calls)

/-- One ranked transcript alternative from the cloud recognizer. -/
structure SpeechAlternative where
  transcript : String
  confidence : ℚ
deriving DecidableEq, Repr

instance : Inhabited SpeechAlternative := ⟨⟨"", 0⟩⟩

/-- One recognized segment (`result` in the response loop), carrying its
ranked alternatives. -/
structure SpeechResult where
  alternatives : List SpeechAlternative
deriving DecidableEq, Repr

/-- The cloud `client.recognize` response. -/
structure RecognizeResponse where
  results : List SpeechResult
deriving DecidableEq, Repr

/-- The loop of main.py lines 300-304: `alternative = result.alternatives[0]`
for each result, in order.  `result.alternatives[0]` on an empty list raises
`IndexError("list index out of range")`, aborting the loop. -/
def extractTops : List SpeechResult → Except PyExc (List SpeechAlternative)
  | [] => .ok []
  | r :: rs =>
    match r.alternatives with
    | [] => .error (.error "list index out of range")
    | a :: _ => (extractTops rs).map (fun tops => a :: tops)

/-- The `try:` block of `transcribe_speech` (main.py lines 256-316).  The
`recognize` argument models everything delegated to external collaborators
after the existence check — client construction, reading the file, and
`client.recognize(config, audio)` — any of which may raise; the
`language_code` only feeds the opaque `RecognitionConfig`. -/
def transcribe_speech_try (fs : List String) (audio_path : String)
    (_language_code : String) (recognize : Except PyExc RecognizeResponse) :
    Except PyExc TranscriptionResponse :=
  if fs.contains audio_path = false then
    .error (.httpException 404 ("Audio file not found: " ++ audio_path))
  else
    match recognize with
    | .error e => .error e
    | .ok response =>
      if response.results.isEmpty then
        .ok ⟨false, "", 0, some "No speech detected in audio"⟩
      else
        match extractTops response.results with
        | .error e => .error e
        | .ok tops =>
          let transcript_parts := tops.map (fun a => a.transcript)
          let total_confidence : ℚ := (tops.map (fun a => a.confidence)).sum
          let result_count := tops.length
          let final_transcript := pyStrip (String.intercalate " " transcript_parts)
          let average_confidence : ℚ :=
            if result_count > 0 then total_confidence / result_count else 0
          .ok ⟨true, final_transcript, average_confidence, none⟩

/-- The `/transcribe-speech` handler (main.py lines 245-325): `try` block
wrapped by the catch-all `except Exception` clause (lines 318-325), which
also catches the 404 `HTTPException`.  The handler is total: no exception
reaches the caller. -/
def transcribe_speech (fs : List String) (audio_path : String)
    (language_code : String) (recognize : Except PyExc RecognizeResponse) :
    TranscriptionResponse :=
  match transcribe_speech_try fs audio_path language_code recognize with
  | .ok r => r
  | .error e => ⟨false, "", 0, some e.str⟩

/-- A concrete Whisper oracle used to evaluate the handlers on closed inputs:
always recognizes Hindi with a fixed transcript. -/
def hindiModel : WhisperModel :=
  fun _ _ => .ok ⟨some "hi", some " नमस्ते "⟩

/-- A concrete Whisper oracle that reports a language absent from the
registry. -/
def welshModel : WhisperModel :=
  fun _ _ => .ok ⟨some "cy", some "bore da"⟩

/-- A concrete Whisper oracle that raises on every invocation. -/
def failingModel : WhisperModel :=
  fun _ _ => .error "CUDA out of memory"

/-- C1: refuted by the code.  The claim says a missing audio file yields a
distinct HTTP 404 (and an uninitialized model HTTP 500) that is NOT wrapped
into the generic success=false body.  In the source, the
`raise HTTPException(...)` statements sit inside the `try:` blocks, and
`except Exception` catches `HTTPException` (a subclass of `Exception`): the
handlers return a success=false body whose error field is the stringified
HTTPException, and no transport-level 404/500 ever escapes.  This theorem
evaluates all three handlers at a missing path and the Whisper-dependent
handlers at an unloaded model. -/
theorem C1_precondition_wrapped_into_body :
    (detect_language (some hindiModel) [] "missing.wav").1 =
      ⟨false, "", "en-IN", 0, "", some "404: Audio file not found: missing.wav"⟩ ∧
    (transcribe_audio (some hindiModel) [] "missing.wav").1 =
      ⟨false, "", "en-IN", 0, "", some "404: Audio file not found: missing.wav"⟩ ∧
    transcribe_speech [] "missing.wav" "en-IN" (.ok ⟨[]⟩) =
      ⟨false, "", 0, some "404: Audio file not found: missing.wav"⟩ ∧
    (detect_language none ["greeting.wav"] "greeting.wav").1 =
      ⟨false, "", "en-IN", 0, "", some "500: Whisper model not loaded"⟩ ∧
    (transcribe_audio none ["greeting.wav"] "greeting.wav").1 =
      ⟨false, "", "en-IN", 0, "", some "500: Whisper model not loaded"⟩ := by
  decide

/-- C2: for each identifier in {en, hi, mr, gu} the registry lookup returns
the exact curated display name and locale code; for any other identifier `s`
it returns the fallback entry whose display name is `Unknown (s)` (hence
contains `s`) with the English default locale code `en-IN`.  The lookup is a
total Lean function, so it never raises. -/
theorem C2_registry_lookup (s : String)
    (h : s ≠ "en" ∧ s ≠ "hi" ∧ s ≠ "mr" ∧ s ≠ "gu") :
    (lookupLanguage "en" = ⟨"English", "en-IN"⟩ ∧
     lookupLanguage "hi" = ⟨"हिंदी (Hindi)", "hi-IN"⟩ ∧
     lookupLanguage "mr" = ⟨"मराठी (Marathi)", "mr-IN"⟩ ∧
     lookupLanguage "gu" = ⟨"ગુજરાતી (Gujarati)", "gu-IN"⟩) ∧
    lookupLanguage s = ⟨"Unknown (" ++ s ++ ")", "en-IN"⟩ := by
  obtain ⟨h1, h2, h3, h4⟩ := h
  have e1 : (("en" : String) == s) = false := beq_eq_false_iff_ne.mpr (Ne.symm h1)
  have e2 : (("hi" : String) == s) = false := beq_eq_false_iff_ne.mpr (Ne.symm h2)
  have e3 : (("mr" : String) == s) = false := beq_eq_false_iff_ne.mpr (Ne.symm h3)
  have e4 : (("gu" : String) == s) = false := beq_eq_false_iff_ne.mpr (Ne.symm h4)
  refine ⟨⟨by decide, by decide, by decide, by decide⟩, ?_⟩
  simp [lookupLanguage, languageMappingGet, LANGUAGE_MAPPING, List.find?,
    e1, e2, e3, e4]

/-- Witness for C2 at the uncurated identifier "fr" and curated "hi". -/
theorem C2_registry_lookup_witness :
    lookupLanguage "fr" = ⟨"Unknown (fr)", "en-IN"⟩ ∧
    lookupLanguage "hi" = ⟨"हिंदी (Hindi)", "hi-IN"⟩ := by
  have h := C2_registry_lookup "fr" ⟨by decide, by decide, by decide, by decide⟩
  exact ⟨h.2, h.1.2.1⟩

/-- C9: on every path of /detect-language — success or failure — the
transcript field of the returned response is the empty string. -/
theorem C9_detect_language_empty_transcript (model? : Option WhisperModel)
    (fs : List String) (path : String) :
    (detect_language model? fs path).1.transcript = "" := by
  match model? with
  | none => simp [detect_language, detect_language_try]
  | some m =>
    cases hc : fs.contains path with
    | false =>
      have hc2 : ¬ path ∈ fs := by simpa using hc
      simp [detect_language, detect_language_try, hc, hc2]
    | true =>
      have hc2 : path ∈ fs := by simpa using hc
      match hm : m path none with
      | .error e => simp [detect_language, detect_language_try, hc, hc2, hm]
      | .ok r => simp [detect_language, detect_language_try, hc, hc2, hm]

/-- C3: on the success path of /detect-language the confidence is exactly 0.9
when the raw identifier is a curated registry key and exactly 0.7 otherwise,
and no other confidence value occurs on any success path. -/
theorem C3_detect_confidence (model : WhisperModel) (fs : List String)
    (path : String) (r : WhisperResult)
    (hfs : fs.contains path = true) (hm : model path none = .ok r) :
    (detect_language (some model) fs path).1.confidence =
      (if curated (r.language.getD "en") then (0.9 : ℚ) else 0.7) ∧
    ∀ (model? : Option WhisperModel) (fs2 : List String) (p : String),
      (detect_language model? fs2 p).1.success = true →
      (detect_language model? fs2 p).1.confidence = 0.9 ∨
      (detect_language model? fs2 p).1.confidence = 0.7 := by
  have hfs2 : path ∈ fs := by simpa using hfs
  constructor
  · simp [detect_language, detect_language_try, hfs, hfs2, hm]
  · intro model? fsb p hsucc
    match model? with
    | none => simp [detect_language, detect_language_try] at hsucc
    | some m =>
      cases hc : fsb.contains p with
      | false =>
        have hc2 : ¬ p ∈ fsb := by simpa using hc
        simp [detect_language, detect_language_try, hc, hc2] at hsucc
      | true =>
        have hc2 : p ∈ fsb := by simpa using hc
        match hm2 : m p none with
        | .error e =>
          simp [detect_language, detect_language_try, hc, hc2, hm2] at hsucc
        | .ok r2 =>
          cases hcur : curated (r2.language.getD "en") with
          | true =>
            left
            simp [detect_language, detect_language_try, hc, hc2, hm2, hcur]
          | false =>
            right
            simp [detect_language, detect_language_try, hc, hc2, hm2, hcur]

/-- Witness for C3: a curated detection (hi) gives 0.9, an uncurated one
(cy) gives 0.7. -/
theorem C3_detect_confidence_witness :
    (detect_language (some hindiModel) ["greeting.wav"] "greeting.wav").1.confidence
      = 0.9 ∧
    (detect_language (some welshModel) ["greeting.wav"] "greeting.wav").1.confidence
      = 0.7 := by
  have h1 := (C3_detect_confidence hindiModel ["greeting.wav"] "greeting.wav"
      ⟨some "hi", some " नमस्ते "⟩ (by decide) rfl).1
  have h2 := (C3_detect_confidence welshModel ["greeting.wav"] "greeting.wav"
      ⟨some "cy", some "bore da"⟩ (by decide) rfl).1
  exact ⟨h1.trans rfl, h2.trans rfl⟩

/-- C4: on the success path of /transcribe the final confidence is exactly
0.95 when the refined (second-pass) transcript is non-empty after stripping
AND the detected identifier is curated, and exactly 0.8 in every other
success case; no other value occurs on any success path. -/
theorem C4_transcribe_confidence (model : WhisperModel) (fs : List String)
    (path : String) (r1 r2 : WhisperResult)
    (hfs : fs.contains path = true)
    (h1 : model path none = .ok r1)
    (h2 : model path (some (r1.language.getD "en")) = .ok r2) :
    (transcribe_audio (some model) fs path).1.confidence =
      (if pyStrip (r2.text.getD "") != "" && curated (r1.language.getD "en")
       then (0.95 : ℚ) else 0.8) ∧
    ∀ (model? : Option WhisperModel) (fs2 : List String) (p : String),
      (transcribe_audio model? fs2 p).1.success = true →
      (transcribe_audio model? fs2 p).1.confidence = 0.95 ∨
      (transcribe_audio model? fs2 p).1.confidence = 0.8 := by
  have hfs2 : path ∈ fs := by simpa using hfs
  constructor
  · simp [transcribe_audio, transcribe_audio_try, hfs, hfs2, h1, h2]
  · intro model? fsb p hsucc
    match model? with
    | none => simp [transcribe_audio, transcribe_audio_try] at hsucc
    | some m =>
      cases hc : fsb.contains p with
      | false =>
        have hc2 : ¬ p ∈ fsb := by simpa using hc
        simp [transcribe_audio, transcribe_audio_try, hc, hc2] at hsucc
      | true =>
        have hc2 : p ∈ fsb := by simpa using hc
        match hm1 : m p none with
        | .error e =>
          simp [transcribe_audio, transcribe_audio_try, hc, hc2, hm1] at hsucc
        | .ok q1 =>
          match hm2 : m p (some (q1.language.getD "en")) with
          | .error e =>
            simp [transcribe_audio, transcribe_audio_try, hc, hc2, hm1, hm2]
              at hsucc
          | .ok q2 =>
            cases hcond : pyStrip (q2.text.getD "") != "" &&
                curated (q1.language.getD "en") with
            | true =>
              left
              simp [transcribe_audio, transcribe_audio_try, hc, hc2, hm1, hm2,
                hcond]
            | false =>
              right
              simp [transcribe_audio, transcribe_audio_try, hc, hc2, hm1, hm2,
                hcond]

/-- Witness for C4: a curated language with non-empty refined transcript
gives 0.95; an uncurated language gives 0.8. -/
theorem C4_transcribe_confidence_witness :
    (transcribe_audio (some hindiModel) ["greeting.wav"] "greeting.wav").1.confidence
      = 0.95 ∧
    (transcribe_audio (some welshModel) ["greeting.wav"] "greeting.wav").1.confidence
      = 0.8 := by
  have h1 := (C4_transcribe_confidence hindiModel ["greeting.wav"] "greeting.wav"
      ⟨some "hi", some " नमस्ते "⟩ ⟨some "hi", some " नमस्ते "⟩
      (by decide) rfl rfl).1
  have h2 := (C4_transcribe_confidence welshModel ["greeting.wav"] "greeting.wav"
      ⟨some "cy", some "bore da"⟩ ⟨some "cy", some "bore da"⟩
      (by decide) rfl rfl).1
  exact ⟨h1.trans rfl, h2.trans rfl⟩

/-- C5: a /transcribe request that reaches recognition invokes the Whisper
capability exactly twice, in order: first with no language hint, then with
exactly the identifier obtained from the first pass; the returned transcript
is the (stripped) text of the second pass. -/
theorem C5_two_pass_orchestration (model : WhisperModel) (fs : List String)
    (path : String) (r1 r2 : WhisperResult)
    (hfs : fs.contains path = true)
    (h1 : model path none = .ok r1)
    (h2 : model path (some (r1.language.getD "en")) = .ok r2) :
    (transcribe_audio (some model) fs path).2 =
      [⟨path, none⟩, ⟨path, some (r1.language.getD "en")⟩] ∧
    (transcribe_audio (some model) fs path).1.transcript =
      pyStrip (r2.text.getD "") := by
  have hfs2 : path ∈ fs := by simpa using hfs
  constructor
  · simp [transcribe_audio, transcribe_audio_try, hfs, hfs2, h1, h2]
  · simp [transcribe_audio, transcribe_audio_try, hfs, hfs2, h1, h2]

/-- Witness for C5: with the Hindi oracle the two calls are made in order
and the transcript comes from the hinted second pass. -/
theorem C5_two_pass_orchestration_witness :
    (transcribe_audio (some hindiModel) ["greeting.wav"] "greeting.wav").2 =
      [⟨"greeting.wav", none⟩, ⟨"greeting.wav", some "hi"⟩] ∧
    (transcribe_audio (some hindiModel) ["greeting.wav"] "greeting.wav").1.transcript
      = "नमस्ते" := by
  have h := C5_two_pass_orchestration hindiModel ["greeting.wav"] "greeting.wav"
      ⟨some "hi", some " नमस्ते "⟩ ⟨some "hi", some " नमस्ते "⟩
      (by decide) rfl rfl
  exact ⟨h.1.trans (by decide), h.2.trans (by decide)⟩

/-- C6 counterexample: the code applies `.strip()` after joining the
top-alternative transcripts, so for a segment whose top alternative carries
surrounding whitespace the returned transcript differs from the plain
single-space join the claim describes. -/
theorem C6_join_vs_strip_counterexample :
    (transcribe_speech ["clip.webm"] "clip.webm" "en-IN"
        (.ok ⟨[⟨[⟨" hello ", 0.5⟩]⟩]⟩)).transcript = "hello" ∧
    String.intercalate " " [" hello "] = " hello " ∧
    ("hello" : String) ≠ " hello " := by
  refine ⟨by decide, by decide, by decide⟩

/-- Helper: when every segment has at least one alternative, the extraction
loop returns the list of heads. -/
theorem extractTops_ok (results : List SpeechResult)
    (h : ∀ r ∈ results, r.alternatives ≠ []) :
    extractTops results =
      .ok (results.map (fun r => r.alternatives.headI)) := by
  induction results with
  | nil => rfl
  | cons r rs ih =>
    have hr : r.alternatives ≠ [] := h r (List.mem_cons_self r rs)
    have ihr := ih (fun x hx => h x (List.mem_cons_of_mem r hx))
    match halt : r.alternatives with
    | [] => exact absurd halt hr
    | a :: rest =>
      simp [extractTops, halt, ihr, Except.map]

/-- C6 amended: for N >= 1 segments (each carrying a top alternative) the
returned transcript equals the N top-alternative transcripts joined by
single spaces in order AND THEN stripped of leading/trailing whitespace, and
the returned confidence equals the arithmetic mean of the N top-alternative
confidence scores. -/
theorem C6_aggregation_amended (fs : List String) (path lc : String)
    (results : List SpeechResult)
    (hfs : fs.contains path = true)
    (hne : results ≠ [])
    (halts : ∀ r ∈ results, r.alternatives ≠ []) :
    transcribe_speech fs path lc (.ok ⟨results⟩) =
      ⟨true,
       pyStrip (String.intercalate " "
          (results.map (fun r => r.alternatives.headI.transcript))),
       (results.map (fun r => r.alternatives.headI.confidence)).sum
         / (results.length : ℚ),
       none⟩ := by
  have hfs2 : path ∈ fs := by simpa using hfs
  have hemp : results.isEmpty = false := by
    cases results with
    | nil => exact absurd rfl hne
    | cons a l => rfl
  have hlen : 0 < results.length := List.length_pos.mpr hne
  simp [transcribe_speech, transcribe_speech_try, hfs, hfs2, hemp,
    extractTops_ok results halts, List.map_map, Function.comp_def, hlen]

/-- Witness for C6 amended: three segments with confidences 0.6, 0.8, 0.9
give the stripped join and mean 23/30. -/
theorem C6_aggregation_amended_witness :
    transcribe_speech ["clip.webm"] "clip.webm" "en-IN"
      (.ok ⟨[⟨[⟨"good", 0.6⟩]⟩, ⟨[⟨"morning", 0.8⟩]⟩, ⟨[⟨"all", 0.9⟩]⟩]⟩) =
      ⟨true, "good morning all", 23/30, none⟩ := by
  have h := C6_aggregation_amended ["clip.webm"] "clip.webm" "en-IN"
      [⟨[⟨"good", 0.6⟩]⟩, ⟨[⟨"morning", 0.8⟩]⟩, ⟨[⟨"all", 0.9⟩]⟩]
      (by decide) (by decide) (by decide)
  rw [h, TranscriptionResponse.mk.injEq]
  refine ⟨rfl, by decide, by norm_num, rfl⟩

/-- C7: with zero returned segments the cloud path returns success=false,
confidence exactly 0, an empty transcript and the non-empty descriptive
error "No speech detected in audio"; the handler returns a response rather
than raising (it is a total function). -/
theorem C7_no_speech_detected (fs : List String) (path lc : String)
    (hfs : fs.contains path = true) :
    transcribe_speech fs path lc (.ok ⟨[]⟩) =
      ⟨false, "", 0, some "No speech detected in audio"⟩ := by
  have hfs2 : path ∈ fs := by simpa using hfs
  simp [transcribe_speech, transcribe_speech_try, hfs, hfs2]

/-- Witness for C7 at a concrete existing path. -/
theorem C7_no_speech_detected_witness :
    transcribe_speech ["clip.webm"] "clip.webm" "hi-IN" (.ok ⟨[]⟩) =
      ⟨false, "", 0, some "No speech detected in audio"⟩ :=
  C7_no_speech_detected ["clip.webm"] "clip.webm" "hi-IN" (by decide)

/-- C8: an exception raised by the recognition capability during
orchestration (first or second pass) is caught and converted to a response
with success=false, confidence 0, empty/default text fields and the
exception message verbatim in the error field; the handler still returns a
response, so the exception never propagates. -/
theorem C8_exception_verbatim (model : WhisperModel) (fs : List String)
    (path : String) (msg : String)
    (hfs : fs.contains path = true) :
    (model path none = .error msg →
      (detect_language (some model) fs path).1 =
        ⟨false, "", "en-IN", 0, "", some msg⟩ ∧
      (transcribe_audio (some model) fs path).1 =
        ⟨false, "", "en-IN", 0, "", some msg⟩) ∧
    (∀ r1 : WhisperResult, model path none = .ok r1 →
      model path (some (r1.language.getD "en")) = .error msg →
      (transcribe_audio (some model) fs path).1 =
        ⟨false, "", "en-IN", 0, "", some msg⟩) := by
  have hfs2 : path ∈ fs := by simpa using hfs
  constructor
  · intro hm
    constructor
    · simp [detect_language, detect_language_try, hfs, hfs2, hm, PyExc.str]
    · simp [transcribe_audio, transcribe_audio_try, hfs, hfs2, hm, PyExc.str]
  · intro r1 h1 h2
    simp [transcribe_audio, transcribe_audio_try, hfs, hfs2, h1, h2, PyExc.str]

/-- Witness for C8 with an oracle that always raises. -/
theorem C8_exception_verbatim_witness :
    (detect_language (some failingModel) ["greeting.wav"] "greeting.wav").1 =
      ⟨false, "", "en-IN", 0, "", some "CUDA out of memory"⟩ :=
  ((C8_exception_verbatim failingModel ["greeting.wav"] "greeting.wav"
      "CUDA out of memory" (by decide)).1 rfl).1

/-- C10: on every failure path of /detect-language and /transcribe the
returned language_code is exactly "en-IN" while detected_language and
transcript are empty strings. -/
theorem C10_failure_fields (model? : Option WhisperModel) (fs : List String)
    (path : String) :
    ((detect_language model? fs path).1.success = false →
      (detect_language model? fs path).1.language_code = "en-IN" ∧
      (detect_language model? fs path).1.detected_language = "" ∧
      (detect_language model? fs path).1.transcript = "") ∧
    ((transcribe_audio model? fs path).1.success = false →
      (transcribe_audio model? fs path).1.language_code = "en-IN" ∧
      (transcribe_audio model? fs path).1.detected_language = "" ∧
      (transcribe_audio model? fs path).1.transcript = "") := by
  constructor
  · intro hfail
    match model? with
    | none => simp [detect_language, detect_language_try]
    | some m =>
      cases hc : fs.contains path with
      | false =>
        have hc2 : ¬ path ∈ fs := by simpa using hc
        simp [detect_language, detect_language_try, hc, hc2]
      | true =>
        have hc2 : path ∈ fs := by simpa using hc
        match hm : m path none with
        | .error e => simp [detect_language, detect_language_try, hc, hc2, hm]
        | .ok r => simp [detect_language, detect_language_try, hc, hc2, hm] at hfail
  · intro hfail
    match model? with
    | none => simp [transcribe_audio, transcribe_audio_try]
    | some m =>
      cases hc : fs.contains path with
      | false =>
        have hc2 : ¬ path ∈ fs := by simpa using hc
        simp [transcribe_audio, transcribe_audio_try, hc, hc2]
      | true =>
        have hc2 : path ∈ fs := by simpa using hc
        match hm : m path none with
        | .error e => simp [transcribe_audio, transcribe_audio_try, hc, hc2, hm]
        | .ok r1 =>
          match hm2 : m path (some (r1.language.getD "en")) with
          | .error e =>
            simp [transcribe_audio, transcribe_audio_try, hc, hc2, hm, hm2]
          | .ok r2 =>
            simp [transcribe_audio, transcribe_audio_try, hc, hc2, hm, hm2]
              at hfail

/-- Witness for C10: the unloaded-model failure path of both handlers. -/
theorem C10_failure_fields_witness :
    (detect_language none ["greeting.wav"] "greeting.wav").1.language_code
      = "en-IN" ∧
    (transcribe_audio none ["greeting.wav"] "greeting.wav").1.language_code
      = "en-IN" := by
  have h := C10_failure_fields none ["greeting.wav"] "greeting.wav"
  exact ⟨(h.1 (by decide)).1, (h.2 (by decide)).1⟩
